import Mathlib

/-!
A shallow embedding of the prediction estimators, data-source adapters and
persistence gateway of the `serie-ai-multi-sport` bot, together with proofs
of the spec's testable properties.

Conventions of the embedding:
* Python numbers are modelled by `ℕ` / `ℚ` (exact rational arithmetic in
  place of IEEE floats); `round(x, n)` is modelled by round-half-to-even on
  the scaled rational, matching Python's rounding of exact halves.
* Team and player names are Lean `String`s; `str.lower()` is modelled on
  the ASCII range (`A`–`Z`), which covers every name the repository uses.
* `random.uniform` / `random.randint` values are passed in as explicit
  parameters, so an estimator is a pure function of names and random draws.
* A Python expression that can raise (`ZeroDivisionError`, attribute access
  on `None`, a malformed API record) is modelled with `Option` / `Except`.
-/

namespace SerieAI

/-- ASCII lowercasing of one character code: `str.lower()` restricted to the
ASCII range, which is the range the repository's team and player names use. -/
def lowerCode (c : Nat) : Nat :=
  if 65 ≤ c ∧ c ≤ 90 then c + 32 else c

/-- Raw name score: `sum(ord(c) for c in name.lower()) % 100`, the hash used
by all three `analyze_match` implementations. -/
def rawScore (name : String) : Nat :=
  ((name.data.map (fun c => lowerCode c.toNat)).sum) % 100

/-- The raw score is always below 100 (it is a remainder mod 100). -/
theorem rawScore_lt_100 (name : String) : rawScore name < 100 :=
  Nat.mod_lt _ (by norm_num)

/-- Python's `round` to an integer: round half to even. -/
def pyRoundInt (q : ℚ) : ℤ :=
  if q - ⌊q⌋ < 1/2 then ⌊q⌋
  else if 1/2 < q - ⌊q⌋ then ⌊q⌋ + 1
  else if ⌊q⌋ % 2 = 0 then ⌊q⌋ else ⌊q⌋ + 1

/-- Python's `round(x, 1)` on exact rationals. -/
def pyRound1 (q : ℚ) : ℚ := (pyRoundInt (10 * q) : ℚ) / 10

/-- Python's `round(x, 2)` on exact rationals. -/
def pyRound2 (q : ℚ) : ℚ := (pyRoundInt (100 * q) : ℚ) / 100

theorem pyRoundInt_le (q : ℚ) : |(pyRoundInt q : ℚ) - q| ≤ 1/2 := by
  unfold pyRoundInt
  have hf : (⌊q⌋ : ℚ) ≤ q := Int.floor_le q
  have hf' : q < ⌊q⌋ + 1 := Int.lt_floor_add_one q
  split
  · next h =>
    rw [abs_le]; constructor <;> linarith
  · next h =>
    push_neg at h
    split
    · next h2 =>
      push_cast
      rw [abs_le]; constructor <;> linarith
    · next h2 =>
      push_neg at h2
      have : q - ⌊q⌋ = 1/2 := le_antisymm h2 h
      split
      · rw [abs_le]; constructor <;> linarith
      · push_cast
        rw [abs_le]; constructor <;> linarith

/-- Rounding to one decimal moves a rational by at most 1/20. -/
theorem pyRound1_close (q : ℚ) : |pyRound1 q - q| ≤ 1/20 := by
  unfold pyRound1
  have h := pyRoundInt_le (10 * q)
  rw [abs_le] at h ⊢
  constructor <;> [linarith [h.1]; linarith [h.2]]

/-! ## Football estimator

`FootballDataManager.analyze_match` in `football_manager.py` (lines 90–127);
`DataManager.analyze_match` in `bot.py` (lines 141–177) has a character-for-
character identical body, so one embedding covers both.  The random
`edge` field (`random.uniform(3, 8)`) is passed in as a parameter. -/

/-- `home_score` after the both-zero 50/50 substitution. -/
def fbScoreA (home away : String) : ℕ :=
  if rawScore home + rawScore away = 0 then 50 else rawScore home

/-- `away_score` after the both-zero 50/50 substitution. -/
def fbScoreB (home away : String) : ℕ :=
  if rawScore home + rawScore away = 0 then 50 else rawScore away

/-- `home_prob = home_score / (home_score + away_score) * 100` (pre-adjustment). -/
def fbProbA (home away : String) : ℚ :=
  (fbScoreA home away : ℚ) / ((fbScoreA home away : ℚ) + (fbScoreB home away : ℚ)) * 100

/-- `away_prob = away_score / (home_score + away_score) * 100` (pre-adjustment). -/
def fbProbB (home away : String) : ℚ :=
  (fbScoreB home away : ℚ) / ((fbScoreA home away : ℚ) + (fbScoreB home away : ℚ)) * 100

/-- `draw_prob = max(20, 100 - home_prob - away_prob)`. -/
def fbDraw (home away : String) : ℚ :=
  max 20 (100 - fbProbA home away - fbProbB home away)

/-- `home_prob -= draw_prob / 3`: the post-adjustment home probability. -/
def fbHomeProb (home away : String) : ℚ :=
  fbProbA home away - fbDraw home away / 3

/-- `away_prob -= draw_prob / 3`: the post-adjustment away probability. -/
def fbAwayProb (home away : String) : ℚ :=
  fbProbB home away - fbDraw home away / 3

/-- The `"1"` / `"X"` / `"2"` conditional expression choosing the outcome label. -/
def fbPrediction (home away : String) : String :=
  if fbHomeProb home away > fbAwayProb home away ∧ fbHomeProb home away > fbDraw home away
  then "1"
  else if fbDraw home away > fbHomeProb home away ∧ fbDraw home away > fbAwayProb home away
  then "X"
  else "2"

/-- `confidence = max(home_prob, draw_prob, away_prob)` (post-adjustment values). -/
def fbConfidence (home away : String) : ℚ :=
  max (fbHomeProb home away) (max (fbDraw home away) (fbAwayProb home away))

/-- The probability of the predicted outcome, used for the value-bet odds. -/
def fbSelectionProb (home away : String) : ℚ :=
  if fbPrediction home away = "1" then fbHomeProb home away
  else if fbPrediction home away = "X" then fbDraw home away
  else fbAwayProb home away

structure FootballProbs where
  home : ℚ
  draw : ℚ
  away : ℚ
deriving DecidableEq, Repr, Inhabited

structure FootballResult where
  probabilities : FootballProbs
  prediction : String
  confidence : ℚ
  goalsHome : ℤ
  goalsAway : ℤ
  valueBetSelection : String
  valueBetOdds : ℚ
  edge : ℚ
deriving DecidableEq, Repr, Inhabited

/-- The whole of `analyze_match` for football: `none` models the
`ZeroDivisionError` Python would raise were the normalizing denominator zero
(the 50/50 substitution is exactly what rules this out).  `edgeDraw` stands
for `random.uniform(3, 8)`. -/
def footballAnalyze (home away : String) (edgeDraw : ℚ) : Option FootballResult :=
  if (fbScoreA home away : ℚ) + (fbScoreB home away : ℚ) = 0 then none
  else some
    { probabilities :=
        { home := pyRound1 (fbHomeProb home away)
          draw := pyRound1 (fbDraw home away)
          away := pyRound1 (fbAwayProb home away) }
      prediction := fbPrediction home away
      confidence := pyRound1 (fbConfidence home away)
      goalsHome := max 0 (pyRoundInt ((fbScoreA home away : ℚ) / 100 * 3))
      goalsAway := max 0 (pyRoundInt ((fbScoreB home away : ℚ) / 100 * 2))
      valueBetSelection := fbPrediction home away
      valueBetOdds := pyRound2 (1 / (fbSelectionProb home away / 100))
      edge := pyRound1 edgeDraw }

/-- After the 50/50 substitution the normalizing denominator is positive. -/
theorem fbScore_sum_pos (home away : String) :
    0 < (fbScoreA home away : ℚ) + (fbScoreB home away : ℚ) := by
  unfold fbScoreA fbScoreB
  split
  · norm_num
  · next h =>
    have : 0 < rawScore home + rawScore away := Nat.pos_of_ne_zero h
    exact_mod_cast this

/-- Pre-adjustment probabilities sum to exactly 100. -/
theorem fbProb_sum (home away : String) :
    fbProbA home away + fbProbB home away = 100 := by
  have h := fbScore_sum_pos home away
  unfold fbProbA fbProbB
  field_simp
  ring

/-- The draw probability is the constant 20: `100 - probA - probB` is exactly 0. -/
theorem fbDraw_eq_20 (home away : String) : fbDraw home away = 20 := by
  unfold fbDraw
  have h := fbProb_sum home away
  have : (100 : ℚ) - fbProbA home away - fbProbB home away = 0 := by linarith
  rw [this]
  norm_num

/-- Post-adjustment home and away probabilities sum to `260/3`. -/
theorem fbHomeAway_sum (home away : String) :
    fbHomeProb home away + fbAwayProb home away = 260/3 := by
  unfold fbHomeProb fbAwayProb
  have h := fbProb_sum home away
  have hd := fbDraw_eq_20 home away
  rw [hd]
  linarith

/-- The football outcome label is never the draw label `"X"`: the larger of
the post-adjustment side probabilities is at least `130/3 > 20 = fbDraw`. -/
theorem fbPrediction_ne_X (home away : String) : fbPrediction home away ≠ "X" := by
  unfold fbPrediction
  have hsum := fbHomeAway_sum home away
  have hd := fbDraw_eq_20 home away
  split
  · decide
  · split
    · next h2 =>
      exfalso
      rw [hd] at h2
      obtain ⟨ha, hb⟩ := h2
      linarith
    · decide

/-- Pre-adjustment probabilities are non-negative. -/
theorem fbProbA_nonneg (home away : String) : 0 ≤ fbProbA home away := by
  unfold fbProbA
  have h := fbScore_sum_pos home away
  positivity

theorem fbProbB_nonneg (home away : String) : 0 ≤ fbProbB home away := by
  unfold fbProbB
  have h := fbScore_sum_pos home away
  positivity

/-! ### The estimator as §4.1 of the spec words it

`specFootballEstimate` below is written from the spec's step list (raw
scores, 50/50 substitution, normalization, draw derivation and adjustment,
strictly-greatest label, max confidence, auxiliary fields), to be compared
with `footballAnalyze`, which is written from the source. -/

/-- Spec step 2: substitute 50 when both raw scores are zero (side A). -/
def specScoreA (entityA entityB : String) : ℕ :=
  if rawScore entityA = 0 ∧ rawScore entityB = 0 then 50 else rawScore entityA

/-- Spec step 2: substitute 50 when both raw scores are zero (side B). -/
def specScoreB (entityA entityB : String) : ℕ :=
  if rawScore entityA = 0 ∧ rawScore entityB = 0 then 50 else rawScore entityB

/-- Spec step 3: `probA = scoreA/(scoreA+scoreB)*100`. -/
def specProbA (entityA entityB : String) : ℚ :=
  (specScoreA entityA entityB : ℚ)
    / ((specScoreA entityA entityB : ℚ) + (specScoreB entityA entityB : ℚ)) * 100

/-- Spec step 3: `probB` symmetric. -/
def specProbB (entityA entityB : String) : ℚ :=
  (specScoreB entityA entityB : ℚ)
    / ((specScoreA entityA entityB : ℚ) + (specScoreB entityA entityB : ℚ)) * 100

/-- Spec step 4: draw probability `max(20, 100 - probA - probB)`. -/
def specDrawProb (entityA entityB : String) : ℚ :=
  max 20 (100 - specProbA entityA entityB - specProbB entityA entityB)

/-- Spec step 4: subtract `draw/3` from `probA`. -/
def specAdjA (entityA entityB : String) : ℚ :=
  specProbA entityA entityB - specDrawProb entityA entityB / 3

/-- Spec step 4: subtract `draw/3` from `probB`. -/
def specAdjB (entityA entityB : String) : ℚ :=
  specProbB entityA entityB - specDrawProb entityA entityB / 3

/-- Spec step 5: home-win if `probA` strictly greatest, draw if the draw
probability is strictly greatest, else away-win. -/
def specLabel (entityA entityB : String) : String :=
  if specAdjA entityA entityB > specAdjB entityA entityB ∧
      specAdjA entityA entityB > specDrawProb entityA entityB then "1"
  else if specDrawProb entityA entityB > specAdjA entityA entityB ∧
      specDrawProb entityA entityB > specAdjB entityA entityB then "X"
  else "2"

/-- Spec step 6: confidence is the maximum of the three probabilities. -/
def specConfidence (entityA entityB : String) : ℚ :=
  max (specAdjA entityA entityB) (max (specDrawProb entityA entityB) (specAdjB entityA entityB))

/-- Spec step 7 and assembly of the whole §4.1 contract, worded from the
spec; `none` when the normalizing denominator would be zero. -/
def specFootballEstimate (entityA entityB : String) (edgeDraw : ℚ) : Option FootballResult :=
  if (specScoreA entityA entityB : ℚ) + (specScoreB entityA entityB : ℚ) = 0 then none
  else some
    { probabilities :=
        { home := pyRound1 (specAdjA entityA entityB)
          draw := pyRound1 (specDrawProb entityA entityB)
          away := pyRound1 (specAdjB entityA entityB) }
      prediction := specLabel entityA entityB
      confidence := pyRound1 (specConfidence entityA entityB)
      goalsHome := max 0 (pyRoundInt ((specScoreA entityA entityB : ℚ) / 100 * 3))
      goalsAway := max 0 (pyRoundInt ((specScoreB entityA entityB : ℚ) / 100 * 2))
      valueBetSelection := specLabel entityA entityB
      valueBetOdds := pyRound2 (1 /
        ((if specLabel entityA entityB = "1" then specAdjA entityA entityB
          else if specLabel entityA entityB = "X" then specDrawProb entityA entityB
          else specAdjB entityA entityB) / 100))
      edge := pyRound1 edgeDraw }

theorem specScoreA_eq (a b : String) : specScoreA a b = fbScoreA a b := by
  unfold specScoreA fbScoreA
  simp only [Nat.add_eq_zero]

theorem specScoreB_eq (a b : String) : specScoreB a b = fbScoreB a b := by
  unfold specScoreB fbScoreB
  simp only [Nat.add_eq_zero]

theorem specProbA_eq (a b : String) : specProbA a b = fbProbA a b := by
  unfold specProbA fbProbA
  rw [specScoreA_eq, specScoreB_eq]

theorem specProbB_eq (a b : String) : specProbB a b = fbProbB a b := by
  unfold specProbB fbProbB
  rw [specScoreA_eq, specScoreB_eq]

theorem specDrawProb_eq (a b : String) : specDrawProb a b = fbDraw a b := by
  unfold specDrawProb fbDraw
  rw [specProbA_eq, specProbB_eq]

theorem specAdjA_eq (a b : String) : specAdjA a b = fbHomeProb a b := by
  unfold specAdjA fbHomeProb
  rw [specProbA_eq, specDrawProb_eq]

theorem specAdjB_eq (a b : String) : specAdjB a b = fbAwayProb a b := by
  unfold specAdjB fbAwayProb
  rw [specProbB_eq, specDrawProb_eq]

theorem specLabel_eq (a b : String) : specLabel a b = fbPrediction a b := by
  unfold specLabel fbPrediction
  rw [specAdjA_eq, specAdjB_eq, specDrawProb_eq]

theorem specConfidence_eq (a b : String) : specConfidence a b = fbConfidence a b := by
  unfold specConfidence fbConfidence
  rw [specAdjA_eq, specAdjB_eq, specDrawProb_eq]

/-- The source's `analyze_match` computes exactly the spec's §4.1 formula. -/
theorem footballAnalyze_eq_spec (a b : String) (e : ℚ) :
    footballAnalyze a b e = specFootballEstimate a b e := by
  unfold footballAnalyze specFootballEstimate fbSelectionProb
  rw [specScoreA_eq, specScoreB_eq, specAdjA_eq, specAdjB_eq, specDrawProb_eq,
    specLabel_eq, specConfidence_eq]

/-- The concrete `("Inter", "Milan")` run of the football estimator,
with every field recomputed by hand from the documented formula:
`rawScore "inter" = 546 % 100 = 46`, `rawScore "milan" = 529 % 100 = 29`,
`probA = 46/75*100`, `probB = 29/75*100`, `draw = 20`,
adjusted `home = 164/3 ↦ 54.7`, `away = 32`, label `"1"`,
confidence `164/3 ↦ 54.7`. -/
theorem footballAnalyze_inter_milan (e : ℚ) :
    footballAnalyze "Inter" "Milan" e = some
      { probabilities := { home := 547/10, draw := 20, away := 32 }
        prediction := "1", confidence := 547/10, goalsHome := 1, goalsAway := 1
        valueBetSelection := "1", valueBetOdds := 183/100, edge := pyRound1 e } := by
  have h1 : rawScore "Inter" = 46 := by decide
  have h2 : rawScore "Milan" = 29 := by decide
  simp only [footballAnalyze, fbScoreA, fbScoreB, fbProbA, fbProbB, fbDraw, fbHomeProb,
    fbAwayProb, fbPrediction, fbConfidence, fbSelectionProb, pyRound1, pyRound2, pyRoundInt,
    h1, h2]
  norm_num

/-- Claim C1: the football estimator computes raw scores as lowercased
character-code sums mod 100, substitutes 50/50 when both are zero,
normalizes, derives `max(20, 100 - probA - probB)` as the draw, subtracts a
third of it from each side without renormalizing, labels by strict-greatest
comparison, and reports the maximum probability as confidence — i.e. it
equals the spec-worded `specFootballEstimate` on every input — and on
`("Inter", "Milan")` the returned probabilities, label and confidence are
exactly the recomputation of that formula. -/
theorem football_formula_end_to_end :
    (∀ (home away : String) (e : ℚ),
        footballAnalyze home away e = specFootballEstimate home away e) ∧
    (∀ e : ℚ,
        (footballAnalyze "Inter" "Milan" e).map
            (fun r => (r.probabilities, r.prediction, r.confidence)) =
          some (⟨547/10, 20, 32⟩, "1", 547/10)) := by
  constructor
  · exact footballAnalyze_eq_spec
  · intro e
    rw [footballAnalyze_inter_milan e]
    rfl

/-- Claim C2, counterexample: on the non-empty pair `("e", "c")` (raw scores
`ord('e') % 100 = 1` and `ord('c') % 100 = 99`) the returned home
probability is `round(1 - 20/3, 1) = -5.7 < 0`, so the three returned
outcome probabilities are not all non-negative. -/
theorem football_nonneg_counterexample :
    footballAnalyze "e" "c" 5 = some
      { probabilities := { home := -57/10, draw := 20, away := 923/10 }
        prediction := "2", confidence := 923/10, goalsHome := 0, goalsAway := 2
        valueBetSelection := "2", valueBetOdds := 27/25, edge := 5 } ∧
    (-57/10 : ℚ) < 0 := by
  constructor
  · have h1 : rawScore "e" = 1 := by decide
    have h2 : rawScore "c" = 99 := by decide
    simp only [footballAnalyze, fbScoreA, fbScoreB, fbProbA, fbProbB, fbDraw, fbHomeProb,
      fbAwayProb, fbPrediction, fbConfidence, fbSelectionProb, pyRound1, pyRound2, pyRoundInt,
      h1, h2]
    norm_num [show ¬(("2" : String) = "1") from by decide,
      show ¬(("2" : String) = "X") from by decide]
  · norm_num

/-- Claim C2 as amended: for every pair of non-empty team names the football
draw probability is non-negative (it is 20), the post-adjustment home and
away probabilities are bounded below by `-20/3` but can be negative, and the
three sum to exactly `320/3 ≈ 106.7`, which is not 100. -/
theorem football_probability_bounds (home away : String)
    (_hh : home ≠ "") (_ha : away ≠ "") :
    0 ≤ fbDraw home away ∧
    -20/3 ≤ fbHomeProb home away ∧
    -20/3 ≤ fbAwayProb home away ∧
    fbHomeProb home away + fbDraw home away + fbAwayProb home away = 320/3 ∧
    fbHomeProb home away + fbDraw home away + fbAwayProb home away ≠ 100 := by
  have hd := fbDraw_eq_20 home away
  have hA := fbProbA_nonneg home away
  have hB := fbProbB_nonneg home away
  have hs := fbHomeAway_sum home away
  refine ⟨by rw [hd]; norm_num, ?_, ?_, by rw [hd]; linarith, ?_⟩
  · unfold fbHomeProb
    rw [hd]
    linarith
  · unfold fbAwayProb
    rw [hd]
    linarith
  · rw [hd]
    intro hcontra
    rw [show fbHomeProb home away + 20 + fbAwayProb home away
        = (fbHomeProb home away + fbAwayProb home away) + 20 by ring, hs] at hcontra
    norm_num at hcontra

/-- Witness for `football_probability_bounds` at `("Inter", "Milan")`. -/
theorem football_probability_bounds_witness :
    0 ≤ fbDraw "Inter" "Milan" ∧
    -20/3 ≤ fbHomeProb "Inter" "Milan" ∧
    -20/3 ≤ fbAwayProb "Inter" "Milan" ∧
    fbHomeProb "Inter" "Milan" + fbDraw "Inter" "Milan" + fbAwayProb "Inter" "Milan" = 320/3 ∧
    fbHomeProb "Inter" "Milan" + fbDraw "Inter" "Milan" + fbAwayProb "Inter" "Milan" ≠ 100 :=
  football_probability_bounds "Inter" "Milan" (by decide) (by decide)

/-- Claim C10: in exact rational arithmetic the football draw probability is
always exactly 20 (the `max` always takes the floor, since the
pre-adjustment probabilities sum to exactly 100), the draw label `"X"` is
unreachable, and the three computed probabilities sum to the constant
`320/3`. -/
theorem football_draw_constant (home away : String) :
    fbDraw home away = 20 ∧
    fbPrediction home away ≠ "X" ∧
    fbHomeProb home away + fbDraw home away + fbAwayProb home away = 320/3 := by
  have hd := fbDraw_eq_20 home away
  have hs := fbHomeAway_sum home away
  exact ⟨hd, fbPrediction_ne_X home away, by rw [hd]; linarith⟩

/-! ## Tennis estimator

`TennisDataManager.analyze_match` in `tennis_manager.py` (lines 103–157).
Every `random.*` draw the function makes is passed in through
`TennisRandom`; the `break_points` / `first_serve` f-strings are modelled by
their numeric components. -/

/-- The random draws `analyze_match` makes, in source order. -/
structure TennisRandom where
  adjustment : ℚ
  setsPick : Bool
  surface : String
  specialistPick : Bool
  acesPick : Bool
  bpWon : ℕ
  bpTotal : ℕ
  firstServe : ℕ
deriving DecidableEq, Repr

/-- `p1_score` after the both-zero 50/50 substitution. -/
def tnScore1 (p1 p2 : String) : ℕ :=
  if rawScore p1 + rawScore p2 = 0 then 50 else rawScore p1

/-- `p2_score` after the both-zero 50/50 substitution. -/
def tnScore2 (p1 p2 : String) : ℕ :=
  if rawScore p1 + rawScore p2 = 0 then 50 else rawScore p2

/-- `player1_prob = (p1_score / total) * 100` before the random adjustment. -/
def tnProb1 (p1 p2 : String) : ℚ :=
  (tnScore1 p1 p2 : ℚ) / ((tnScore1 p1 p2 : ℚ) + (tnScore2 p1 p2 : ℚ)) * 100

/-- `player2_prob = (p2_score / total) * 100` before the random adjustment. -/
def tnProb2 (p1 p2 : String) : ℚ :=
  (tnScore2 p1 p2 : ℚ) / ((tnScore1 p1 p2 : ℚ) + (tnScore2 p1 p2 : ℚ)) * 100

/-- `player1_prob += adjustment`. -/
def tnPerturbed1 (p1 p2 : String) (adj : ℚ) : ℚ := tnProb1 p1 p2 + adj

/-- `player2_prob -= adjustment`. -/
def tnPerturbed2 (p1 p2 : String) (adj : ℚ) : ℚ := tnProb2 p1 p2 - adj

/-- Renormalization: `player1_prob = (player1_prob / total_prob) * 100`. -/
def tnFinal1 (p1 p2 : String) (adj : ℚ) : ℚ :=
  tnPerturbed1 p1 p2 adj / (tnPerturbed1 p1 p2 adj + tnPerturbed2 p1 p2 adj) * 100

/-- Renormalization: `player2_prob = (player2_prob / total_prob) * 100`. -/
def tnFinal2 (p1 p2 : String) (adj : ℚ) : ℚ :=
  tnPerturbed2 p1 p2 adj / (tnPerturbed1 p1 p2 adj + tnPerturbed2 p1 p2 adj) * 100

structure TennisResult where
  player1 : String
  player2 : String
  prob1 : ℚ
  prob2 : ℚ
  predictedWinner : String
  confidence : ℚ
  predictedScore : String
  surface : String
  surfaceSpecialist : String
  acesAdvantage : String
  breakPointsWon : ℕ
  breakPointsTotal : ℕ
  firstServe : ℕ
deriving DecidableEq, Repr

/-- The whole of the tennis `analyze_match`; `none` models the
`ZeroDivisionError` of either division. -/
def tennisAnalyze (p1 p2 : String) (r : TennisRandom) : Option TennisResult :=
  if (tnScore1 p1 p2 : ℚ) + (tnScore2 p1 p2 : ℚ) = 0 then none
  else if tnPerturbed1 p1 p2 r.adjustment + tnPerturbed2 p1 p2 r.adjustment = 0 then none
  else some
    { player1 := p1
      player2 := p2
      prob1 := pyRound1 (tnFinal1 p1 p2 r.adjustment)
      prob2 := pyRound1 (tnFinal2 p1 p2 r.adjustment)
      predictedWinner :=
        if tnFinal1 p1 p2 r.adjustment > tnFinal2 p1 p2 r.adjustment then p1 else p2
      confidence :=
        pyRound1 (max (tnFinal1 p1 p2 r.adjustment) (tnFinal2 p1 p2 r.adjustment))
      predictedScore :=
        if tnFinal1 p1 p2 r.adjustment > tnFinal2 p1 p2 r.adjustment then
          if r.setsPick then "2-0" else "2-1"
        else
          if r.setsPick then "0-2" else "1-2"
      surface := r.surface
      surfaceSpecialist := if r.specialistPick then p1 else p2
      acesAdvantage := if r.acesPick then p1 else p2
      breakPointsWon := r.bpWon
      breakPointsTotal := r.bpTotal
      firstServe := r.firstServe }

/-- After the 50/50 substitution the tennis denominator is positive. -/
theorem tnScore_sum_pos (p1 p2 : String) :
    0 < (tnScore1 p1 p2 : ℚ) + (tnScore2 p1 p2 : ℚ) := by
  unfold tnScore1 tnScore2
  split
  · norm_num
  · next h =>
    have : 0 < rawScore p1 + rawScore p2 := Nat.pos_of_ne_zero h
    exact_mod_cast this

/-- Pre-adjustment tennis probabilities sum to exactly 100. -/
theorem tnProb_sum (p1 p2 : String) : tnProb1 p1 p2 + tnProb2 p1 p2 = 100 := by
  have h := tnScore_sum_pos p1 p2
  unfold tnProb1 tnProb2
  field_simp
  ring

/-- The perturbation cancels: `total_prob` is exactly 100 for every
adjustment value. -/
theorem tnPerturbed_sum (p1 p2 : String) (adj : ℚ) :
    tnPerturbed1 p1 p2 adj + tnPerturbed2 p1 p2 adj = 100 := by
  unfold tnPerturbed1 tnPerturbed2
  have h := tnProb_sum p1 p2
  linarith

/-- Renormalization is the identity here: dividing by the exact total 100
and multiplying by 100 returns the perturbed value. -/
theorem tnFinal1_eq (p1 p2 : String) (adj : ℚ) :
    tnFinal1 p1 p2 adj = tnPerturbed1 p1 p2 adj := by
  unfold tnFinal1
  rw [tnPerturbed_sum]
  norm_num

theorem tnFinal2_eq (p1 p2 : String) (adj : ℚ) :
    tnFinal2 p1 p2 adj = tnPerturbed2 p1 p2 adj := by
  unfold tnFinal2
  rw [tnPerturbed_sum]
  norm_num

/-- The renormalized tennis probabilities sum to exactly 100. -/
theorem tnFinal_sum (p1 p2 : String) (adj : ℚ) :
    tnFinal1 p1 p2 adj + tnFinal2 p1 p2 adj = 100 := by
  rw [tnFinal1_eq, tnFinal2_eq, tnPerturbed_sum]

/-- Claim C3: for every pair of player names and every value of the random
perturbation, the renormalized tennis probabilities sum to exactly 100, and
the pair the estimator returns (rounded to one decimal) sums to 100 within
the 0.1 tolerance. -/
theorem tennis_prob_sum_100 (p1 p2 : String) (r : TennisRandom) :
    tnFinal1 p1 p2 r.adjustment + tnFinal2 p1 p2 r.adjustment = 100 ∧
    ∃ t, tennisAnalyze p1 p2 r = some t ∧ |t.prob1 + t.prob2 - 100| ≤ 1/10 := by
  refine ⟨tnFinal_sum p1 p2 r.adjustment, ?_⟩
  have h0 : ¬ ((tnScore1 p1 p2 : ℚ) + (tnScore2 p1 p2 : ℚ) = 0) :=
    ne_of_gt (tnScore_sum_pos p1 p2)
  have h1 : ¬ (tnPerturbed1 p1 p2 r.adjustment + tnPerturbed2 p1 p2 r.adjustment = 0) := by
    rw [tnPerturbed_sum]
    norm_num
  refine ⟨_, by rw [tennisAnalyze, if_neg h0, if_neg h1], ?_⟩
  have c1 := pyRound1_close (tnFinal1 p1 p2 r.adjustment)
  have c2 := pyRound1_close (tnFinal2 p1 p2 r.adjustment)
  have hs := tnFinal_sum p1 p2 r.adjustment
  rw [abs_le] at c1 c2 ⊢
  constructor <;> simp only [] <;> [linarith [c1.1, c2.1]; linarith [c1.2, c2.2]]

/-! ## Basketball estimator

`BasketballDataManager.analyze_match` in `basketball_manager.py`
(lines 86–123).  The two `random.randint` draws (point spread, total
points) are parameters.  The `spread` f-string is modelled by its sign
(`spreadPlus`) and magnitude. -/

/-- `h_score` with the home court advantage: `h_score += 10`.
There is no both-zero substitution in the basketball variant. -/
def bbHomeScore (home : String) : ℕ := rawScore home + 10

/-- `total = h_score + a_score`. -/
def bbTotal (home away : String) : ℕ := bbHomeScore home + rawScore away

/-- `home_prob = (h_score / total) * 100`. -/
def bbHomeProb (home away : String) : ℚ :=
  (bbHomeScore home : ℚ) / (bbTotal home away : ℚ) * 100

/-- `away_prob = (a_score / total) * 100`. -/
def bbAwayProb (home away : String) : ℚ :=
  (rawScore away : ℚ) / (bbTotal home away : ℚ) * 100

structure BasketballResult where
  homeTeam : String
  awayTeam : String
  probHome : ℚ
  probAway : ℚ
  predictedWinner : String
  confidence : ℚ
  spreadPlus : Bool
  spreadValue : ℕ
  totalPoints : ℕ
deriving DecidableEq, Repr

/-- The whole of the basketball `analyze_match`; `none` models the
`ZeroDivisionError` were `total` zero (the fixed `+10` bonus rules it out). -/
def basketballAnalyze (home away : String) (spread totalPts : ℕ) :
    Option BasketballResult :=
  if (bbTotal home away : ℚ) = 0 then none
  else some
    { homeTeam := home
      awayTeam := away
      probHome := pyRound1 (bbHomeProb home away)
      probAway := pyRound1 (bbAwayProb home away)
      predictedWinner := if bbHomeProb home away > bbAwayProb home away then home else away
      confidence := pyRound1 (max (bbHomeProb home away) (bbAwayProb home away))
      spreadPlus := (if bbHomeProb home away > bbAwayProb home away then home else away) = away
      spreadValue := spread
      totalPoints := totalPts }

/-- The basketball denominator is at least 10, hence never zero. -/
theorem bbTotal_pos (home away : String) : 0 < (bbTotal home away : ℚ) := by
  have : 0 < bbTotal home away := by
    unfold bbTotal bbHomeScore
    omega
  exact_mod_cast this

/-- On equal team names `bbHomeProb` is at least `2725/52 ≈ 52.4`:
the raw score is at most 99, so `(r+10)/(2r+10)*100` is minimized at `r = 99`. -/
theorem bbHomeProb_equal_lower (t : String) : 2725/52 ≤ bbHomeProb t t := by
  unfold bbHomeProb bbTotal bbHomeScore
  have hr : rawScore t < 100 := rawScore_lt_100 t
  set x : ℚ := (rawScore t : ℚ) with hx
  have hx0 : 0 ≤ x := by positivity
  have hx99 : x ≤ 99 := by
    rw [hx]
    exact_mod_cast Nat.lt_succ_iff.mp hr
  have hden : (0 : ℚ) < ((rawScore t + 10 : ℕ) : ℚ) + x := by
    push_cast
    linarith
  have hcast : ((rawScore t + 10 + rawScore t : ℕ) : ℚ) = ((rawScore t + 10 : ℕ) : ℚ) + x := by
    push_cast
    ring
  rw [hcast, div_mul_eq_mul_div, le_div_iff₀ hden]
  push_cast
  linarith

/-- Claim C4: the basketball home score is always the raw score plus the
fixed bonus 10; on every pair of equal team names the returned home
probability (rounded) is strictly above 50; and the probability pair does
not depend on the random spread / total-points draws. -/
theorem basketball_home_bonus :
    (∀ home : String, bbHomeScore home = rawScore home + 10) ∧
    (∀ (t : String) (sp tp : ℕ), ∃ r, basketballAnalyze t t sp tp = some r ∧ 50 < r.probHome) ∧
    (∀ (h a : String) (sp tp sp' tp' : ℕ),
      (basketballAnalyze h a sp tp).map (fun r => (r.probHome, r.probAway)) =
        (basketballAnalyze h a sp' tp').map (fun r => (r.probHome, r.probAway))) := by
  refine ⟨fun _ => rfl, ?_, ?_⟩
  · intro t sp tp
    have hne : ¬ ((bbTotal t t : ℚ) = 0) := (bbTotal_pos t t).ne'
    refine ⟨_, by rw [basketballAnalyze, if_neg hne], ?_⟩
    have hlow := bbHomeProb_equal_lower t
    have hclose := pyRound1_close (bbHomeProb t t)
    rw [abs_le] at hclose
    simp only []
    linarith [hclose.1]
  · intro h a sp tp sp' tp'
    by_cases hc : (bbTotal h a : ℚ) = 0 <;> simp [basketballAnalyze, hc]

/-- Claim C9: an empty name's raw score is 0, and all three estimators
return a result (no `ZeroDivisionError`) on every pair of strings, the
empty string included: the football and tennis variants are protected by
the 50/50 substitution, the basketball variant by the `+10` home bonus. -/
theorem estimators_total_on_all_strings :
    rawScore "" = 0 ∧
    ∀ (home away : String) (e : ℚ) (r : TennisRandom) (sp tp : ℕ),
      (footballAnalyze home away e).isSome ∧
      (tennisAnalyze home away r).isSome ∧
      (basketballAnalyze home away sp tp).isSome := by
  refine ⟨rfl, fun home away e r sp tp => ⟨?_, ?_, ?_⟩⟩
  · rw [footballAnalyze, if_neg (fbScore_sum_pos home away).ne']
    rfl
  · rw [tennisAnalyze, if_neg (tnScore_sum_pos home away).ne', if_neg ?_]
    · rfl
    · rw [tnPerturbed_sum]
      norm_num
  · rw [basketballAnalyze, if_neg (bbTotal_pos home away).ne']
    rfl

/-! ## Data source adapters

An API record is modelled as `Option R` for the record structure `R`:
`none` stands for a malformed record on which the mapping body raises
(in Python, attribute access on a non-dict).  Inside a well-formed record a
missing field is an `Option` field, matching `dict.get`: with a default it
can never raise, without one it yields `None`.  Python's
`datetime.fromisoformat(...).strftime(...)` on the fixture date is kept
abstract: the mapped `time` field carries the raw date string, and the one
way the source's date expression raises that the claims need —
`fix.get('fixture', {}).get('date')` returning `None`, so that
`None.replace(...)` throws `AttributeError` — is modelled by `date = none`. -/

/-- One football fixture from the API (`teams.home.name`, `teams.away.name`,
`league.id`, `fixture.date`). -/
structure Fixture where
  leagueId : Option ℕ
  homeName : Option String
  awayName : Option String
  date : Option String
deriving DecidableEq, Repr

/-- One normalized football match row built by `get_todays_matches`. -/
structure FootballMatch where
  home : Option String
  away : Option String
  league : String
  time : String
deriving DecidableEq, Repr

/-- `self.leagues` of `FootballDataManager`. -/
def footballLeagues : List (ℕ × String) :=
  [(135, "🇮🇹 Serie A"), (39, "🏴󠁧󠁢󠁥󠁮󠁧󠁿 Premier League"),
   (140, "🇪🇸 La Liga"), (78, "🇩🇪 Bundesliga")]

/-- `next((k for k, v in self.leagues.items() if v['id'] == league_id), None)`
followed by the `self.leagues[league_code]['name']` lookup. -/
def footballLeagueName (lid : ℕ) : Option String :=
  (footballLeagues.find? (fun p => p.1 == lid)).map (·.2)

/-- The fixed 5-element simulation fallback `_get_simulated_matches`. -/
def footballSimulatedMatches : List FootballMatch :=
  [⟨some "Inter", some "Milan", "🇮🇹 Serie A", "20:45"⟩,
   ⟨some "Man City", some "Liverpool", "🏴󠁧󠁢󠁥󠁮󠁧󠁿 Premier League", "12:30"⟩,
   ⟨some "Barcelona", some "Real Madrid", "🇪🇸 La Liga", "21:00"⟩,
   ⟨some "Juventus", some "Napoli", "🇮🇹 Serie A", "18:00"⟩,
   ⟨some "Bayern", some "Dortmund", "🇩🇪 Bundesliga", "17:30"⟩]

/-- One iteration of the fixture loop: `error` when the body raises
(malformed record, or a supported-league fixture whose date is `None`),
`ok none` when the fixture is filtered out (unsupported league),
`ok (some m)` when a match row is appended. -/
def footballMapStep (fix : Option Fixture) : Except Unit (Option FootballMatch) :=
  match fix with
  | none => .error ()
  | some f =>
    match f.leagueId with
    | none => .ok none
    | some lid =>
      match footballLeagueName lid with
      | none => .ok none
      | some lname =>
        match f.date with
        | none => .error ()
        | some d => .ok (some ⟨f.homeName, f.awayName, lname, d⟩)

/-- The whole fixture loop.  It sits inside a single `try`, so the first
raise aborts the batch: the error propagates out of the loop. -/
def footballMapAll : List (Option Fixture) → Except Unit (List FootballMatch)
  | [] => .ok []
  | fix :: rest =>
    match footballMapStep fix with
    | .error e => .error e
    | .ok m =>
      match footballMapAll rest with
      | .error e => .error e
      | .ok ms => .ok (match m with | some x => x :: ms | none => ms)

/-- The API path of `FootballDataManager.get_todays_matches`: empty fixture
payload, an exception anywhere in the loop, or an empty mapped list all fall
back to the simulated matches.  Note there is no truncation of `matches`. -/
def footballGetTodaysMatches (fixtures : List (Option Fixture)) : List FootballMatch :=
  if fixtures = [] then footballSimulatedMatches
  else
    match footballMapAll fixtures with
    | .error _ => footballSimulatedMatches
    | .ok ms => if ms = [] then footballSimulatedMatches else ms

/-- One tennis match record from the API. -/
structure TennisApiMatch where
  player1Name : Option String
  player2Name : Option String
  competitionName : Option String
  surface : Option String
  date : Option String
  round : Option String
deriving DecidableEq, Repr

/-- One normalized tennis match row. -/
structure TennisMatch where
  player1 : String
  player2 : String
  tournament : String
  surface : String
  time : String
  round : String
deriving DecidableEq, Repr

/-- The body of the `_format_api_matches` loop: every field access is a
`dict.get` with a default. -/
def tennisMapMatch (m : TennisApiMatch) : TennisMatch :=
  { player1 := m.player1Name.getD "Player 1"
    player2 := m.player2Name.getD "Player 2"
    tournament := m.competitionName.getD "Tournament"
    surface := m.surface.getD "Hard"
    time := m.date.getD "TBD"
    round := m.round.getD "R32" }

/-- The `for … try … continue` loop of `_format_api_matches`: a record whose
mapping raises (`none`) is skipped, every other record is mapped. -/
def tennisFormatLoop (recs : List (Option TennisApiMatch)) : List TennisMatch :=
  recs.filterMap (fun rec => rec.map tennisMapMatch)

/-- `TennisDataManager._format_api_matches`: truncate to the first 10
records (`api_data[:10]`), then run the per-record loop. -/
def tennisFormatApiMatches (api : List (Option TennisApiMatch)) : List TennisMatch :=
  tennisFormatLoop (api.take 10)

/-- One tennis ranking record from the API. -/
structure TennisApiRank where
  rank : Option ℕ
  playerName : Option String
  points : Option ℕ
  playerCountry : Option String
deriving DecidableEq, Repr

/-- One normalized ranking row. -/
structure TennisRank where
  rank : ℕ
  player : String
  points : ℕ
  country : String
deriving DecidableEq, Repr

/-- The body of the `_format_api_rankings` loop. -/
def tennisMapRank (r : TennisApiRank) : TennisRank :=
  { rank := r.rank.getD 0
    player := r.playerName.getD "Unknown"
    points := r.points.getD 0
    country := r.playerCountry.getD "N/A" }

/-- The per-record loop of `_format_api_rankings`. -/
def tennisRankLoop (recs : List (Option TennisApiRank)) : List TennisRank :=
  recs.filterMap (fun rec => rec.map tennisMapRank)

/-- `TennisDataManager._format_api_rankings`: truncate to the top 20
(`api_data[:20]`), then run the per-record loop. -/
def tennisFormatApiRankings (api : List (Option TennisApiRank)) : List TennisRank :=
  tennisRankLoop (api.take 20)

/-- One basketball game record from the API. -/
structure BasketballApiGame where
  homeName : Option String
  awayName : Option String
  leagueName : Option String
  time : Option String
  date : Option String
deriving DecidableEq, Repr

/-- One normalized basketball game row. -/
structure BasketballGame where
  homeTeam : String
  awayTeam : String
  league : String
  time : String
  date : String
deriving DecidableEq, Repr

/-- The body of the `_format_api_games` loop. -/
def basketballMapGame (g : BasketballApiGame) : BasketballGame :=
  { homeTeam := g.homeName.getD "Home"
    awayTeam := g.awayName.getD "Away"
    league := g.leagueName.getD "League"
    time := g.time.getD "TBD"
    date := g.date.getD "Today" }

/-- The per-record loop of `_format_api_games`. -/
def basketballGameLoop (recs : List (Option BasketballApiGame)) : List BasketballGame :=
  recs.filterMap (fun rec => rec.map basketballMapGame)

/-- `BasketballDataManager._format_api_games`: truncate to the first 15
(`api_data[:15]`), then run the per-record loop. -/
def basketballFormatApiGames (api : List (Option BasketballApiGame)) : List BasketballGame :=
  basketballGameLoop (api.take 15)

/-- A supported-league fixture with every field present: it maps cleanly. -/
def goodFixture : Fixture :=
  ⟨some 135, some "Napoli", some "Roma", some "2025-01-01T20:45:00+00:00"⟩

/-- A supported-league fixture whose `fixture.date` is missing, so the loop
body raises (`None.replace`). -/
def badFixture : Fixture := ⟨some 135, some "Juventus", some "Napoli", none⟩

/-- An exception at any record of the football fixture batch makes the whole
mapping fail. -/
theorem footballMapAll_error_of_mem (fixtures : List (Option Fixture))
    (f : Option Fixture) (hf : f ∈ fixtures) (he : footballMapStep f = .error ()) :
    footballMapAll fixtures = .error () := by
  induction fixtures with
  | nil => cases hf
  | cons head rest ih =>
    rw [footballMapAll]
    rcases List.mem_cons.mp hf with h | h
    · rw [← h, he]
    · cases hstep : footballMapStep head with
      | error e => cases e; rfl
      | ok m => rw [ih h]

/-- One raising record makes football `get_todays_matches` throw away the
whole batch and return the simulated fallback. -/
theorem football_abort_of_bad_record (fixtures : List (Option Fixture))
    (f : Option Fixture) (hf : f ∈ fixtures) (he : footballMapStep f = .error ()) :
    footballGetTodaysMatches fixtures = footballSimulatedMatches := by
  have hne : fixtures ≠ [] := by
    rintro rfl
    cases hf
  rw [footballGetTodaysMatches, if_neg hne, footballMapAll_error_of_mem fixtures f hf he]

/-- Claim C5, counterexample: a 21-fixture API response, every fixture in a
supported league and well-formed, is returned by the football adapter with
all 21 entries — no cap between 10 and 20 is applied to football. -/
theorem football_no_truncation_counterexample :
    (footballGetTodaysMatches (List.replicate 21 (some goodFixture))).length = 21 ∧
    20 < 21 := by
  constructor
  · decide
  · norm_num

/-- Claim C5 as amended: the tennis match list is capped at 10, the tennis
ranking list at 20 and the basketball game list at 15, but the football
fixture list is not truncated (see the counterexample). -/
theorem adapter_truncation_caps :
    (∀ api : List (Option TennisApiMatch), (tennisFormatApiMatches api).length ≤ 10) ∧
    (∀ api : List (Option TennisApiRank), (tennisFormatApiRankings api).length ≤ 20) ∧
    (∀ api : List (Option BasketballApiGame), (basketballFormatApiGames api).length ≤ 15) := by
  refine ⟨fun api => ?_, fun api => ?_, fun api => ?_⟩ <;>
    [skip; skip; skip] <;>
    first
    | calc (tennisFormatApiMatches api).length
          ≤ (api.take 10).length := List.length_filterMap_le _ _
        _ ≤ 10 := by rw [List.length_take]; exact min_le_left _ _
    | calc (tennisFormatApiRankings api).length
          ≤ (api.take 20).length := List.length_filterMap_le _ _
        _ ≤ 20 := by rw [List.length_take]; exact min_le_left _ _
    | calc (basketballFormatApiGames api).length
          ≤ (api.take 15).length := List.length_filterMap_le _ _
        _ ≤ 15 := by rw [List.length_take]; exact min_le_left _ _

/-- Claim C6, counterexample: the batch `[badFixture, goodFixture]` makes
football `get_todays_matches` return the 5-entry simulated fallback — the
good record is not returned even though on its own it maps to a one-element
batch, and the fallback does not contain its mapped row.  One bad record
discarded the whole football batch. -/
theorem football_batch_abort_counterexample :
    footballGetTodaysMatches [some badFixture, some goodFixture] =
      footballSimulatedMatches ∧
    footballGetTodaysMatches [some goodFixture] =
      [⟨some "Napoli", some "Roma", "🇮🇹 Serie A", "2025-01-01T20:45:00+00:00"⟩] ∧
    (⟨some "Napoli", some "Roma", "🇮🇹 Serie A", "2025-01-01T20:45:00+00:00"⟩ :
        FootballMatch) ∉ footballSimulatedMatches := by
  refine ⟨by decide, by decide, by decide⟩

/-- Claim C6 as amended: for tennis matches, tennis rankings and basketball
games a record whose mapping raises is skipped by itself and the rest of the
batch is still mapped; for football, one raising record aborts the whole
batch and the adapter falls back to the simulated list. -/
theorem per_record_failure_semantics :
    (∀ (xs ys : List (Option TennisApiMatch)),
        tennisFormatLoop (xs ++ none :: ys) = tennisFormatLoop (xs ++ ys)) ∧
    (∀ (xs ys : List (Option TennisApiRank)),
        tennisRankLoop (xs ++ none :: ys) = tennisRankLoop (xs ++ ys)) ∧
    (∀ (xs ys : List (Option BasketballApiGame)),
        basketballGameLoop (xs ++ none :: ys) = basketballGameLoop (xs ++ ys)) ∧
    (∀ (fixtures : List (Option Fixture)) (f : Option Fixture),
        f ∈ fixtures → footballMapStep f = .error () →
        footballGetTodaysMatches fixtures = footballSimulatedMatches) := by
  refine ⟨fun xs ys => ?_, fun xs ys => ?_, fun xs ys => ?_,
    football_abort_of_bad_record⟩ <;>
  simp [tennisFormatLoop, tennisRankLoop, basketballGameLoop, List.filterMap_append]

/-- Witness for the football conjunct of `per_record_failure_semantics`:
the bad fixture is a member of the two-element batch, its mapping step
raises, and the adapter returns the simulated list. -/
theorem per_record_failure_semantics_witness :
    footballGetTodaysMatches [some badFixture, some goodFixture] =
      footballSimulatedMatches :=
  per_record_failure_semantics.2.2.2 [some badFixture, some goodFixture]
    (some badFixture) (by decide) rfl

/-! ## Persistence gateway

`DatabaseManager` in `database.py` over the `models.py` schema.  The users
table is a list of rows in insertion order plus the autoincrement counter;
`datetime.utcnow()` is the explicit `now` parameter.  Only the columns the
gateway reads or writes are modelled. -/

/-- A row of the `users` table (the columns `get_or_create_user` touches). -/
structure UserRow where
  id : ℕ
  telegram_id : ℤ
  username : Option String
  first_name : Option String
  last_name : Option String
  created_at : ℕ
  last_seen : ℕ
deriving DecidableEq, Repr

/-- The `users` table with its autoincrement primary-key counter. -/
structure UsersTable where
  rows : List UserRow
  nextId : ℕ
deriving DecidableEq, Repr

/-- Python's `new or old` on string-ish columns: a `None` or empty new value
keeps the old one. -/
def pyOr (new old : Option String) : Option String :=
  match new with
  | none => old
  | some s => if s = "" then old else some s

/-- The `filter(User.telegram_id == telegram_id)` predicate. -/
def userMatches (tid : ℤ) (u : UserRow) : Bool := u.telegram_id == tid

/-- An ORM flush of an in-place mutation: rewrite the first row the query
matched, leave the rest of the table untouched. -/
def updateFirst {α : Type} (p : α → Bool) (f : α → α) : List α → List α
  | [] => []
  | x :: xs => if p x then f x :: xs else x :: updateFirst p f xs

/-- The mutation `get_or_create_user` performs on an existing row:
`last_seen = utcnow()`, `username = username or user.username`, and likewise
for the name fields. -/
def updateUserFields (now : ℕ) (username first_name last_name : Option String)
    (v : UserRow) : UserRow :=
  { v with
    last_seen := now
    username := pyOr username v.username
    first_name := pyOr first_name v.first_name
    last_name := pyOr last_name v.last_name }

/-- `DatabaseManager.get_or_create_user`: look the platform id up
(`.first()`); insert a fresh row with the current timestamp when absent,
update the first matching row in place when present. -/
def getOrCreateUser (db : UsersTable) (now : ℕ) (tid : ℤ)
    (username first_name last_name : Option String) : UserRow × UsersTable :=
  match db.rows.find? (userMatches tid) with
  | none =>
    let u : UserRow :=
      { id := db.nextId, telegram_id := tid, username := username,
        first_name := first_name, last_name := last_name,
        created_at := now, last_seen := now }
    (u, { rows := db.rows ++ [u], nextId := db.nextId + 1 })
  | some u =>
    (updateUserFields now username first_name last_name u,
     { rows := updateFirst (userMatches tid)
         (updateUserFields now username first_name last_name) db.rows
       nextId := db.nextId })

theorem length_updateFirst {α : Type} (p : α → Bool) (f : α → α) (l : List α) :
    (updateFirst p f l).length = l.length := by
  induction l with
  | nil => rfl
  | cons x xs ih =>
    rw [updateFirst]
    split
    · rfl
    · simp [ih]

/-- If the first match exists and `f` preserves the predicate, updating the
first match makes `find?` return the updated row. -/
theorem find?_updateFirst {α : Type} (p : α → Bool) (f : α → α)
    (hp : ∀ x, p (f x) = p x) (l : List α) (u : α) (h : l.find? p = some u) :
    (updateFirst p f l).find? p = some (f u) := by
  induction l with
  | nil => simp at h
  | cons x xs ih =>
    by_cases hx : p x = true
    · rw [List.find?_cons_of_pos _ hx] at h
      injection h with h
      rw [← h, updateFirst, if_pos hx]
      exact List.find?_cons_of_pos _ (by rw [hp, hx])
    · have hx' : ¬ p x = true := hx
      rw [List.find?_cons_of_neg _ hx'] at h
      rw [updateFirst, if_neg hx']
      rw [List.find?_cons_of_neg _ hx']
      exact ih h

/-- The insert branch of `get_or_create_user`, as an equation. -/
theorem getOrCreateUser_absent (db : UsersTable) (now : ℕ) (tid : ℤ)
    (un fn ln : Option String) (h : db.rows.find? (userMatches tid) = none) :
    getOrCreateUser db now tid un fn ln =
      ({ id := db.nextId, telegram_id := tid, username := un, first_name := fn,
         last_name := ln, created_at := now, last_seen := now },
       { rows := db.rows ++
           [{ id := db.nextId, telegram_id := tid, username := un, first_name := fn,
              last_name := ln, created_at := now, last_seen := now }]
         nextId := db.nextId + 1 }) := by
  rw [getOrCreateUser, h]

/-- The update branch of `get_or_create_user`, as an equation. -/
theorem getOrCreateUser_present (db : UsersTable) (now : ℕ) (tid : ℤ)
    (un fn ln : Option String) (u : UserRow)
    (h : db.rows.find? (userMatches tid) = some u) :
    getOrCreateUser db now tid un fn ln =
      (updateUserFields now un fn ln u,
       { rows := updateFirst (userMatches tid) (updateUserFields now un fn ln) db.rows
         nextId := db.nextId }) := by
  rw [getOrCreateUser, h]

/-- The row `get_or_create_user` returns is the first `find?` match of the
resulting table, and it carries the queried platform id. -/
theorem getOrCreateUser_find (db : UsersTable) (now : ℕ) (tid : ℤ)
    (un fn ln : Option String) :
    ((getOrCreateUser db now tid un fn ln).2).rows.find? (userMatches tid) =
      some (getOrCreateUser db now tid un fn ln).1 ∧
    (getOrCreateUser db now tid un fn ln).1.telegram_id = tid := by
  cases hfind : db.rows.find? (userMatches tid) with
  | none =>
    rw [getOrCreateUser_absent db now tid un fn ln hfind]
    refine ⟨?_, rfl⟩
    rw [List.find?_append, hfind]
    simp [userMatches]
  | some u =>
    rw [getOrCreateUser_present db now tid un fn ln u hfind]
    refine ⟨find?_updateFirst (userMatches tid) (updateUserFields now un fn ln)
      (fun x => rfl) db.rows u hfind, ?_⟩
    have hu : userMatches tid u = true := List.find?_some hfind
    simp only [userMatches, beq_iff_eq] at hu
    exact hu

/-- Claim C7: calling `get_or_create_user` twice with the same platform id
returns rows with the same primary key, never inserts on the second call,
inserts exactly one new row stamped with the current time when the id was
absent, and only rewrites the matching row in place (fields refreshed
`new or old`, `last_seen` overwritten) when it was present. -/
theorem getOrCreateUser_no_duplicate (db : UsersTable) (now1 now2 : ℕ) (tid : ℤ)
    (un1 fn1 ln1 un2 fn2 ln2 : Option String) :
    (getOrCreateUser db now1 tid un1 fn1 ln1).1.id =
      (getOrCreateUser ((getOrCreateUser db now1 tid un1 fn1 ln1).2) now2 tid
        un2 fn2 ln2).1.id ∧
    ((getOrCreateUser ((getOrCreateUser db now1 tid un1 fn1 ln1).2) now2 tid
        un2 fn2 ln2).2).rows.length =
      ((getOrCreateUser db now1 tid un1 fn1 ln1).2).rows.length ∧
    (db.rows.find? (userMatches tid) = none →
      ((getOrCreateUser db now1 tid un1 fn1 ln1).2).rows.length =
          db.rows.length + 1 ∧
      (getOrCreateUser db now1 tid un1 fn1 ln1).1.last_seen = now1 ∧
      (getOrCreateUser db now1 tid un1 fn1 ln1).1.created_at = now1) ∧
    (∀ u, db.rows.find? (userMatches tid) = some u →
      ((getOrCreateUser db now1 tid un1 fn1 ln1).2).rows.length = db.rows.length ∧
      (getOrCreateUser db now1 tid un1 fn1 ln1).1 =
        updateUserFields now1 un1 fn1 ln1 u) := by
  obtain ⟨hfind, -⟩ := getOrCreateUser_find db now1 tid un1 fn1 ln1
  have h2 := getOrCreateUser_present ((getOrCreateUser db now1 tid un1 fn1 ln1).2)
    now2 tid un2 fn2 ln2 ((getOrCreateUser db now1 tid un1 fn1 ln1).1) hfind
  refine ⟨?_, ?_, ?_, ?_⟩
  · rw [h2]
    rfl
  · rw [h2]
    exact length_updateFirst _ _ _
  · intro habs
    rw [getOrCreateUser_absent db now1 tid un1 fn1 ln1 habs]
    exact ⟨by simp, rfl, rfl⟩
  · intro u hpres
    rw [getOrCreateUser_present db now1 tid un1 fn1 ln1 u hpres]
    exact ⟨length_updateFirst _ _ _, rfl⟩

/-- Witness for `getOrCreateUser_no_duplicate`: start from an empty table;
the id `7` is absent (discharged by `rfl`), one row is inserted, and the
second call returns the same primary key without growing the table. -/
theorem getOrCreateUser_no_duplicate_witness :
    (getOrCreateUser ⟨[], 1⟩ 10 7 none none none).1.id =
      (getOrCreateUser ((getOrCreateUser ⟨[], 1⟩ 10 7 none none none).2) 11 7
        none none none).1.id ∧
    ((getOrCreateUser ((getOrCreateUser ⟨[], 1⟩ 10 7 none none none).2) 11 7
        none none none).2).rows.length =
      ((getOrCreateUser ⟨[], 1⟩ 10 7 none none none).2).rows.length ∧
    ((getOrCreateUser ⟨[], 1⟩ 10 7 none none none).2).rows.length = 1 := by
  have h := getOrCreateUser_no_duplicate ⟨[], 1⟩ 10 11 7 none none none none none none
  exact ⟨h.1, h.2.1, by simpa using (h.2.2.1 rfl).1⟩

/-- A row of a per-sport predictions table: the columns `get_user_stats`
(and its identical tennis/basketball twins) reads. -/
structure PredRow where
  user_id : ℕ
  is_correct : Option Bool
  created_at : ℕ
deriving DecidableEq, Repr

/-- `ORDER BY created_at DESC`. -/
def createdDesc (a b : PredRow) : Prop := b.created_at ≤ a.created_at

instance : DecidableRel createdDesc := fun _ _ => Nat.decLe _ _

instance : IsTotal PredRow createdDesc := ⟨fun a b => le_total b.created_at a.created_at⟩

instance : IsTrans PredRow createdDesc := ⟨fun _ _ _ hab hbc => le_trans hbc hab⟩

/-- The dictionary `get_user_stats` returns (sans the `user` row, which is
the one `get_or_create_user` produced). -/
structure UserStats where
  total : ℕ
  correct : ℕ
  accuracy : ℚ
  recent : List PredRow
deriving DecidableEq, Repr

/-- `DatabaseManager.get_user_stats` — and `get_tennis_stats` /
`get_basketball_stats`, whose bodies are identical up to the prediction
table queried: resolve the user, count the user's rows, count the user's
rows with `is_correct == True`, take the 5 most recent by creation time
descending, and compute the rounded accuracy percentage with 0 substituted
when there are no rows. -/
def getUserStats (db : UsersTable) (preds : List PredRow) (now : ℕ) (tid : ℤ) :
    UserStats × UsersTable :=
  let r := getOrCreateUser db now tid none none none
  let total := (preds.filter (fun p => p.user_id == r.1.id)).length
  let correct :=
    (preds.filter (fun p => p.user_id == r.1.id && p.is_correct == some true)).length
  let recent :=
    ((preds.filter (fun p => p.user_id == r.1.id)).insertionSort createdDesc).take 5
  let accuracy := pyRound1 (if 0 < total then (correct : ℚ) / (total : ℚ) * 100 else 0)
  (⟨total, correct, accuracy, recent⟩, r.2)

theorem pyRound1_zero : pyRound1 0 = 0 := by
  norm_num [pyRound1, pyRoundInt]

/-- Claim C8: a user with no stored predictions of the queried variant gets
`total = 0`, `correct = 0`, `accuracy = 0` and an empty `recent`; in
general the accuracy is the rounded percentage `correct/total*100` with 0
substituted when `total = 0`, and `recent` holds exactly the at most 5
most-recently-created of the user's stored prediction rows, ordered by
creation time descending: it is drawn (with multiplicity) from the user's
rows, its length is the minimum of 5 and their count, it is sorted
descending, every user row left out of it is no newer than every row in it,
and every row in it belongs to the user. -/
theorem getStats_zero_and_recent :
    (∀ (db : UsersTable) (preds : List PredRow) (now : ℕ) (tid : ℤ),
      (∀ p ∈ preds, p.user_id ≠ (getOrCreateUser db now tid none none none).1.id) →
      (getUserStats db preds now tid).1 = ⟨0, 0, 0, []⟩) ∧
    (∀ (db : UsersTable) (preds : List PredRow) (now : ℕ) (tid : ℤ),
      ((getUserStats db preds now tid).1).accuracy =
        pyRound1 (if 0 < ((getUserStats db preds now tid).1).total
          then (((getUserStats db preds now tid).1).correct : ℚ) /
            (((getUserStats db preds now tid).1).total : ℚ) * 100
          else 0) ∧
      ((getUserStats db preds now tid).1).recent.length ≤ 5 ∧
      ((getUserStats db preds now tid).1).recent.length =
        min 5 (preds.filter
          (fun p => p.user_id == (getOrCreateUser db now tid none none none).1.id)).length ∧
      List.Subperm ((getUserStats db preds now tid).1).recent
        (preds.filter
          (fun p => p.user_id == (getOrCreateUser db now tid none none none).1.id)) ∧
      List.Sorted createdDesc ((getUserStats db preds now tid).1).recent ∧
      (∀ q ∈ preds.filter
          (fun p => p.user_id == (getOrCreateUser db now tid none none none).1.id),
        q ∉ ((getUserStats db preds now tid).1).recent →
        ∀ p ∈ ((getUserStats db preds now tid).1).recent,
          q.created_at ≤ p.created_at) ∧
      ∀ p ∈ ((getUserStats db preds now tid).1).recent,
        p.user_id = (getOrCreateUser db now tid none none none).1.id) := by
  constructor
  · intro db preds now tid h
    have hnil : preds.filter
        (fun p => p.user_id == (getOrCreateUser db now tid none none none).1.id) = [] := by
      rw [List.filter_eq_nil_iff]
      intro p hp
      simpa using h p hp
    have hnil2 : preds.filter
        (fun p => p.user_id == (getOrCreateUser db now tid none none none).1.id &&
          p.is_correct == some true) = [] := by
      rw [List.filter_eq_nil_iff]
      intro p hp
      simp [h p hp]
    simp [getUserStats, hnil, hnil2, pyRound1_zero]
  · intro db preds now tid
    set F : List PredRow := preds.filter
      (fun p => p.user_id == (getOrCreateUser db now tid none none none).1.id) with hF
    have hrec : ((getUserStats db preds now tid).1).recent =
        (F.insertionSort createdDesc).take 5 := by
      rw [hF]
      rfl
    refine ⟨rfl, ?_, ?_, ?_, ?_, ?_, ?_⟩
    · rw [hrec, List.length_take]
      exact min_le_left _ _
    · rw [hrec, List.length_take, (List.perm_insertionSort createdDesc F).length_eq]
    · rw [hrec]
      exact (List.take_sublist 5 (F.insertionSort createdDesc)).subperm.trans
        (List.perm_insertionSort createdDesc F).subperm
    · rw [hrec]
      exact List.Pairwise.sublist (List.take_sublist 5 _)
        (List.sorted_insertionSort createdDesc _)
    · intro q hqF hqnot p hp
      rw [hrec] at hqnot hp
      have hqS : q ∈ F.insertionSort createdDesc :=
        (List.perm_insertionSort createdDesc F).mem_iff.mpr hqF
      have hsorted : List.Pairwise createdDesc (F.insertionSort createdDesc) :=
        List.sorted_insertionSort createdDesc F
      rw [← List.take_append_drop 5 (F.insertionSort createdDesc)] at hqS hsorted
      obtain ⟨-, -, hcross⟩ := List.pairwise_append.mp hsorted
      rcases List.mem_append.mp hqS with hq1 | hq2
      · exact absurd hq1 hqnot
      · exact hcross p hp q hq2
    · intro p hp
      rw [hrec] at hp
      have hp1 : p ∈ F.insertionSort createdDesc := List.take_sublist 5 _ |>.mem hp
      have hp2 := (List.perm_insertionSort createdDesc F).mem_iff.mp hp1
      rw [hF] at hp2
      have := (List.mem_filter.mp hp2).2
      simpa using this

/-- Witness for `getStats_zero_and_recent`: on an empty predictions table
the hypothesis of the zero case is vacuous and the stats are all zero. -/
theorem getStats_zero_and_recent_witness :
    (getUserStats ⟨[], 1⟩ [] 10 7).1 = ⟨0, 0, 0, []⟩ :=
  getStats_zero_and_recent.1 ⟨[], 1⟩ [] 10 7 (by simp)

end SerieAI
